import Mathlib

/-!
Verification of the PEMDashboard multi-strategy MPC core.

The definitions below are shallow embeddings of the JavaScript sources:
floating-point numbers are modelled as rationals, fallible computations as
values of type Except String, JavaScript promise aggregation as explicit
propagation of the first error, and injected randomness (Math.random) as an
explicit oracle argument.
-/

namespace PEMDash

/-! ### Plant model and trajectory prediction (src/unnamed/part_004, class RealKenyaNeuralMPC) -/

/-- State-space model returned by getPEMModel: states are temperature and
efficiency, the single input is the drive current. -/
structure PEMModel where
  a11 : ℚ
  a12 : ℚ
  a21 : ℚ
  a22 : ℚ
  b1 : ℚ
  b2 : ℚ
deriving DecidableEq, Repr

/-- getPEMModel from part_004: A = [[0.95, 0.02], [-0.01, 0.98]], B = [[0.1], [0.05]]. -/
def getPEMModel : PEMModel :=
  { a11 := 0.95, a12 := 0.02, a21 := -0.01, a22 := 0.98, b1 := 0.1, b2 := 0.05 }

/-- One step of the discrete state-space recursion used inside predictTrajectory:
next = A*state + B*control, written out component-wise exactly as in the source. -/
def modelStep (m : PEMModel) (s : ℚ × ℚ) (u : ℚ) : ℚ × ℚ :=
  (m.a11 * s.1 + m.a12 * s.2 + m.b1 * u,
   m.a21 * s.1 + m.a22 * s.2 + m.b2 * u)

/-- Loop body of predictTrajectory: at step i the control is
controlSequence[Math.min(i, controlSequence.length - 1)]; the successor states
are accumulated in order. The fuel argument is the number of remaining steps. -/
def predictAux (m : PEMModel) (cs : List ℚ) : ℕ → ℕ → ℚ × ℚ → List (ℚ × ℚ)
  | 0, _, _ => []
  | fuel + 1, i, s =>
      let u := cs.getD (min i (cs.length - 1)) 0
      let s' := modelStep m s u
      s' :: predictAux m cs fuel (i + 1) s'

/-- predictTrajectory from part_004: trajectory starts with the initial state and
appends one successor state per horizon step. In the source the horizon is the
instance field predictionHorizon; it is passed explicitly here. -/
def predictTrajectory (m : PEMModel) (s0 : ℚ × ℚ) (cs : List ℚ) (horizon : ℕ) :
    List (ℚ × ℚ) :=
  s0 :: predictAux m cs horizon 0 s0

/-- The instance field predictionHorizon of RealKenyaNeuralMPC. -/
def predictionHorizon : ℕ := 10

/-- calculateCostGradient from part_004: gradient of the tracking plus control
cost at the given current, with Q = diag(1, 0.5) and R = diag(0.1). -/
def calculateCostGradient (current s0 s1 spTemp spEff : ℚ) : ℚ :=
  2 * 1 * (s0 + 0.1 * current - spTemp) * 0.1 +
  2 * 0.5 * (s1 + 0.05 * current - spEff) * 0.05 +
  2 * 0.1 * current

/-- One gradient-descent iteration of solveQP: a step with learning rate 0.1
followed by the clamp Math.max(100, Math.min(200, current)). -/
def qpStep (s0 s1 spTemp spEff cur : ℚ) : ℚ :=
  max 100 (min 200 (cur - 0.1 * calculateCostGradient cur s0 s1 spTemp spEff))

/-- The gradient-descent loop of solveQP, iterated a fixed number of times. -/
def qpLoop (s0 s1 spTemp spEff : ℚ) : ℕ → ℚ → ℚ
  | 0, cur => cur
  | n + 1, cur => qpLoop s0 s1 spTemp spEff n (qpStep s0 s1 spTemp spEff cur)

/-- solveQP from part_004: 50 projected-gradient iterations from the initial
guess 150, each iteration ending in the clamp to the range 100..200. -/
def solveQP (s0 s1 spTemp spEff : ℚ) : ℚ :=
  qpLoop s0 s1 spTemp spEff 50 150

/-- standardMPC from part_004, restricted to its control and trajectory outputs:
the optimal sequence is the singleton returned by solveQP and the predicted
states come from predictTrajectory. The rng oracle stands for the ambient
Math.random source available to every strategy; this strategy never reads it. -/
def standardMPCRun (rng : ℕ → ℚ) (s0 s1 spTemp spEff : ℚ) :
    ℚ × List (ℚ × ℚ) :=
  let u := solveQP s0 s1 spTemp spEff
  (u, predictTrajectory getPEMModel (s0, s1) [u] predictionHorizon)

/-- Zero-order-hold padding: the control sequence extended to the horizon length
by repeating its last value. -/
def padZOH (cs : List ℚ) (horizon : ℕ) : List ℚ :=
  cs ++ List.replicate (horizon - cs.length) (cs.getLastD 0)

/-- generateUncertaintyScenarios from part_004: a single scenario carrying only
a probability weight of 1.0. -/
def generateUncertaintyScenarios : List (Option ℚ) :=
  [some 1]

/-! ### Per-strategy results and the comparator (src/unnamed/part_008, class MPCComparator) -/

/-- Result object produced by one strategy invocation, with the fields read by
calculatePerformanceMetrics. Fields a given strategy does not set are none,
mirroring absent JavaScript properties. -/
structure MpcResult where
  type : String
  optimalCurrent : ℚ
  predictedStates : Option (List (ℚ × ℚ))
  cost : Option ℚ
  totalCost : Option ℚ
  computationTime : Option ℚ
deriving DecidableEq, Repr

/-- JavaScript a || d for a numeric a: the default d is taken when the field is
absent (undefined) or equal to 0 (falsy). -/
def jsOrQ : Option ℚ → ℚ → ℚ
  | some v, d => if v = 0 then d else v
  | none, d => d

/-- Population variance of a list of values. Modelled from the spec: the method
calculateVariation called by calculateStability in part_008 is missing from the
sources; the spec describes stability as trajectory variance-based, and the
sibling implementations (calculateVariance in part_004) compute the population
variance, which is used here. -/
def calculateVariation (xs : List ℚ) : ℚ :=
  let n : ℚ := xs.length
  if xs.length = 0 then 0
  else
    let mean := xs.sum / n
    ((xs.map (fun x => (x - mean) ^ 2)).sum) / n

/-- calculateStability from part_008: 0.9 when no trajectory is present,
otherwise max(0, 1 - variation(temperatures)/10) over the trajectory
temperatures. -/
def calculateStability (r : MpcResult) : ℚ :=
  match r.predictedStates with
  | none => 0.9
  | some states => max 0 (1 - calculateVariation (states.map (·.1)) / 10)

/-- checkConstraintViolations from part_008: one violation is counted when the
optimal current leaves the range 100..200. -/
def checkConstraintViolations (r : MpcResult) : ℚ :=
  if r.optimalCurrent < 100 ∨ r.optimalCurrent > 200 then 1 else 0

/-- estimateO2Production from part_008: current times 0.21 L/min. -/
def estimateO2Production (current : ℚ) : ℚ :=
  current * 0.21

/-- Per-strategy performance metrics computed by calculatePerformanceMetrics. -/
structure Metrics where
  efficiency : ℚ
  cost : ℚ
  responseTime : ℚ
  computationTime : ℚ
  stability : ℚ
  constraintViolations : ℚ
  o2Production : ℚ
deriving DecidableEq, Repr

/-- The metrics entry calculatePerformanceMetrics builds for one result:
efficiency is the second component of the second trajectory state (default 75),
cost falls back through result.cost, result.total_cost and 4.0, and response
time and computation time both default the measured computation time to 0.1. -/
def metricsOf (r : MpcResult) : Metrics :=
  { efficiency :=
      match r.predictedStates with
      | some states => (states.getD 1 (0, 0)).2
      | none => 75
    cost := jsOrQ r.cost (jsOrQ r.totalCost 4)
    responseTime := jsOrQ r.computationTime 0.1
    computationTime := jsOrQ r.computationTime 0.1
    stability := calculateStability r
    constraintViolations := checkConstraintViolations r
    o2Production := estimateO2Production r.optimalCurrent }

/-- calculatePerformanceMetrics from part_008, keyed by the strategy type in the
order the results were collected. -/
def calculatePerformanceMetrics (rs : List MpcResult) : List (String × Metrics) :=
  rs.map (fun r => (r.type, metricsOf r))

/-- The weighted score computed inside rankMPCAlgorithms in part_008. -/
def scoreOf (m : Metrics) : ℚ :=
  m.efficiency * 0.25 +
  (1 / m.cost) * 0.25 +
  (1 / m.responseTime) * 0.15 +
  m.stability * 0.20 +
  (1 - m.constraintViolations) * 0.15

/-- The scored entries before sorting, in metrics-map order. -/
def scoredEntries (ms : List (String × Metrics)) : List (String × ℚ) :=
  ms.map (fun p => (p.1, scoreOf p.2))

/-- rankMPCAlgorithms from part_008: the scored entries sorted by descending
score with the JavaScript comparator (a, b) => b.score - a.score. Array sort is
stable, so equal scores keep their relative order; insertionSort with the
non-strict descending relation has exactly this behaviour. -/
def rankMPCAlgorithms (ms : List (String × Metrics)) : List (String × ℚ) :=
  (scoredEntries ms).insertionSort (fun a b => b.2 ≤ a.2)

/-- Output of one comparison run: the per-strategy results, the metrics map and
the ranking. -/
structure ComparisonOutput where
  individualResults : List (String × MpcResult)
  performanceMetrics : List (String × Metrics)
  ranking : List (String × ℚ)
deriving DecidableEq, Repr

/-- Promise.all over already-settled outcomes: the list of values when every
promise fulfilled, otherwise the first rejection in order. -/
def promiseAll : List (Except String MpcResult) → Except String (List MpcResult)
  | [] => .ok []
  | .error e :: _ => .error e
  | .ok r :: rest => (promiseAll rest).map (r :: ·)

/-- runAllMPCComparison from part_008: awaits Promise.all over the five strategy
invocations (their outcomes are the argument here), then builds the results
map, the performance metrics and the ranking. A rejection of any strategy
rejects the whole comparison. -/
def runAllMPCComparison (outcomes : List (Except String MpcResult)) :
    Except String ComparisonOutput :=
  (promiseAll outcomes).map (fun rs =>
    { individualResults := rs.map (fun r => (r.type, r))
      performanceMetrics := calculatePerformanceMetrics rs
      ranking := rankMPCAlgorithms (calculatePerformanceMetrics rs) })

/-! ### Spec-side score formula (for claim C4)

The definition below follows the words of the spec, not the source: every
term is an inverse, including the constraint-violations term. It exists only
to be compared with scoreOf. -/

/-- Score as worded by the spec: efficiency times 0.25, plus inverse cost times
0.25, plus inverse computation time times 0.15, plus stability times 0.20,
plus inverse constraint-violations times 0.15. -/
def specScoreFormula (m : Metrics) : ℚ :=
  m.efficiency * 0.25 +
  (1 / m.cost) * 0.25 +
  (1 / m.computationTime) * 0.15 +
  m.stability * 0.20 +
  (1 / m.constraintViolations) * 0.15

/-! ### The comparator strategy methods (src/mpc-comparator.js, class MPCComparator) -/

/-- checkConstraints from mpc-comparator.js: derived temperature, purity and
voltage values together with the four violation flags, returned as the tuple
(temperature violated, purity violated, voltage violated, current violated). -/
def checkConstraintsComp (current : ℚ) : Bool × Bool × Bool × Bool :=
  let temp := 65 + (current - 150) * 0.1
  let purity := 99.5 - (current - 150) * 0.01
  let voltage := 38 + (current - 150) * 0.05
  (decide (temp > 80), decide (purity < 99), decide (voltage > 45),
   decide (current > 200 ∨ current < 100))

/-- isFeasible from mpc-comparator.js: no violation flag is set. -/
def isFeasibleComp (current : ℚ) : Bool :=
  let c := checkConstraintsComp current
  !(c.1 || c.2.1 || c.2.2.1 || c.2.2.2)

/-- deterministicMPC from mpc-comparator.js: the scalar QP solution
-f/H with H = 2*(R00 + Q11) and f = -2*Q11*setpoint, clamped to the configured
current range 100..200 (R00 = 0.1, Q11 = 10). -/
def deterministicMPCComp (setpointProduction : ℚ) : ℚ :=
  let qH := 2 * (0.1 + 10)
  let f := -2 * 10 * setpointProduction
  max 100 (min 200 (-f / qH))

/-- solveQPWithUncertainty from mpc-comparator.js: the same scalar QP with the
noisy A[1][1] entry in place of Q11, clamped to the current range. -/
def solveQPWithUncertainty (a11 setpointProduction : ℚ) : ℚ :=
  let qH := 2 * (0.1 + a11)
  let f := -2 * a11 * setpointProduction
  max 100 (min 200 (-f / qH))

/-- stochasticMPC from mpc-comparator.js: 50 scenarios, each adding noise
in [-0.05, 0.05] to the system matrix (only the (1,1) entry is read downstream;
noise i is the draw for scenario i), averaging the feasible scenario solutions
and falling back to the hard-coded default 150 when no scenario is feasible. -/
def stochasticMPCComp (rng : ℕ → ℚ) (setpointProduction : ℚ) : ℚ :=
  let scen := (List.range 50).map
    (fun i => solveQPWithUncertainty (0.98 + rng i) setpointProduction)
  let feas := scen.filter (fun c => isFeasibleComp c)
  if 0 < feas.length then feas.sum / feas.length else 150

/-- robustMPC from mpc-comparator.js: worst-case Q11 = 12 and the conservative
range 105..195. -/
def robustMPCComp (setpointProduction : ℚ) : ℚ :=
  let qH := 2 * (0.1 + 12)
  let f := -2 * 12 * setpointProduction
  max 105 (min 195 (-f / qH))

/-- computeControl from mpc-comparator.js restricted to its control output:
the strategy name selects the method from the dispatch map. The rng oracle is
the ambient Math.random source; only the stochastic branch reads it. The
HYBRID_MPC and HE_NMPC branches also involve the comparator history and a
simulated neural call and are not modelled; the claims settled here concern
the other branches. -/
def computeControl (mpcType : String) (rng : ℕ → ℚ) (setpointProduction : ℚ) :
    Option ℚ :=
  if mpcType = "DETERMINISTIC_MPC" then some (deterministicMPCComp setpointProduction)
  else if mpcType = "STOCHASTIC_MPC" then some (stochasticMPCComp rng setpointProduction)
  else if mpcType = "ROBUST_MPC" then some (robustMPCComp setpointProduction)
  else none

/-! ### First MPCAlgorithms class (src/mpc-algorithms.js, lines 1-190) -/

/-- stochasticMPC from the first MPCAlgorithms class: base current 150 scaled
down by the robustness margin 0.1 times the estimated uncertainty, then guarded
only from below by Math.max with constraints.minCurrent; the maxCurrent bound
is never read. The uncertainty estimate is passed as an argument because its
producer estimateUncertainty is not among the sources. -/
def stochasticMPCControl (uncertainty minCurrent maxCurrent : ℚ) : ℚ :=
  let baseCurrent : ℚ := 150
  let robustnessMargin : ℚ := 0.1
  max (baseCurrent * (1 - robustnessMargin * uncertainty)) minCurrent

/-! ### Second MPCAlgorithms class (src/mpc-algorithms.js, lines 199-989) -/

/-- Input-constraint configuration from this class: current in 100..200 and
cooling in 0..100. -/
structure InputConstraints where
  currentMin : ℚ
  currentMax : ℚ
  coolingMin : ℚ
  coolingMax : ℚ
deriving DecidableEq, Repr

/-- The values set for the inputs record by the constructor's constraint
configuration. -/
def inputConstraintCfg : InputConstraints :=
  { currentMin := 100, currentMax := 200, coolingMin := 0, coolingMax := 100 }

/-- The constraint-record lookup this.constraints[type] performed by
applyConstraints: the constructor's record keys its entries states, inputs and
outputs, so the input bounds live under the key "inputs" and a lookup under any
other key (in particular the call sites' "input") misses. Only the input-shaped
entry is modelled; the states and outputs entries have different shapes and are
never read by the functions embedded here. -/
def constraintsLookup : String → Option InputConstraints
  | "inputs" => some inputConstraintCfg
  | _ => none

/-- applyConstraints from the second MPCAlgorithms class: the bounds record is
looked up under the given type key and the value is returned unchanged when the
lookup misses; when the lookup hits and the type string is "input", both
components are clamped to their ranges. Every call site passes "input" while
the configuration stores the bounds under "inputs", so at the program's call
sites the lookup misses and the value passes through unclamped: the clamp
branch is dead code. -/
def applyConstraints (typeKey : String) (v : ℚ × ℚ) : ℚ × ℚ :=
  match constraintsLookup typeKey with
  | none => v
  | some cfg =>
      if typeKey = "input" then
        (max cfg.currentMin (min cfg.currentMax v.1),
         max cfg.coolingMin (min cfg.coolingMax v.2))
      else v

/-- checkFeasibility from the second MPCAlgorithms class: both control
components lie within the current and cooling ranges of the inputs member of
the constraints record passed to it; the argument here is that inputs member. -/
def checkFeasibility (cfg : InputConstraints) (v : ℚ × ℚ) : Bool :=
  decide (cfg.currentMin ≤ v.1 ∧ v.1 ≤ cfg.currentMax ∧
          cfg.coolingMin ≤ v.2 ∧ v.2 ≤ cfg.coolingMax)

/-- One uncertainty scenario from generateScenarios: four per-step channel
profiles. Scenarios of this class carry no probability weight; the field is an
Option so that the part_004 scenario shape (probability only) and this shape
can be reasoned about uniformly, and it is none here mirroring the absent
JavaScript property. -/
structure Scenario where
  electricityPrice : List ℚ
  demandUncertainty : List ℚ
  efficiencyVariation : List ℚ
  temperatureNoise : List ℚ
  probability : Option ℚ
deriving DecidableEq, Repr

/-- generateScenarios from the second MPCAlgorithms class: numScenarios
scenarios, each with horizon-long channel profiles built from uniform [0, 1)
draws u i c k (scenario i, channel c, step k) through the per-channel formulas
of generatePriceUncertainty, generateDemandUncertainty,
generateEfficiencyUncertainty and generateTemperatureUncertainty. No
probability weight is attached. -/
def generateScenarios (u : ℕ → ℕ → ℕ → ℚ) (numScenarios horizon : ℕ) :
    List Scenario :=
  (List.range numScenarios).map (fun i =>
    { electricityPrice := (List.range horizon).map (fun k => 0.12 * (0.9 + u i 0 k * 0.2))
      demandUncertainty := (List.range horizon).map (fun k => 0.8 + u i 1 k * 0.4)
      efficiencyVariation := (List.range horizon).map (fun k => 0.95 + u i 2 k * 0.1)
      temperatureNoise := (List.range horizon).map (fun k => u i 3 k * 4 - 2)
      probability := none })

/-- The scenario-aggregation logic of stochasticMPC in the second MPCAlgorithms
class, applied to the per-scenario solver outcomes: infeasible scenarios (the
solver threw) are skipped, the feasible solutions are summed and averaged, and
with zero feasible scenarios the explicit error is raised. The averaged control
is clamped by applyConstraints before being returned. -/
def stochasticMPCAlg (scenarioOutcomes : List (Except String (ℚ × ℚ))) :
    Except String (ℚ × ℚ) :=
  let oks := scenarioOutcomes.filterMap (fun r => r.toOption)
  if oks.length = 0 then
    .error "No feasible scenarios found"
  else
    let total : ℚ × ℚ := oks.foldl (fun acc c => (acc.1 + c.1, acc.2 + c.2)) (0, 0)
    .ok (applyConstraints "input" (total.1 / oks.length, total.2 / oks.length))

/-! ### Helper lemmas -/

/-- The prediction loop produces exactly one state per remaining step. -/
theorem predictAux_length (m : PEMModel) (cs : List ℚ) :
    ∀ fuel i s, (predictAux m cs fuel i s).length = fuel := by
  intro fuel
  induction fuel with
  | zero => intro i s; rfl
  | succ n ih => intro i s; simp [predictAux, ih]

/-- When the control sequence is shorter than the horizon, the padded sequence
has exactly the horizon length. -/
theorem padZOH_length (cs : List ℚ) (horizon : ℕ) (hlen : cs.length < horizon) :
    (padZOH cs horizon).length = horizon := by
  simp only [padZOH, List.length_append, List.length_replicate]
  omega

/-- Lookups through the zero-order-hold index expression agree between the
original control sequence and its padded extension, at every step index below
the horizon. -/
theorem padZOH_getD (cs : List ℚ) (hcs : cs ≠ []) (horizon i : ℕ)
    (hlen : cs.length < horizon) (hi : i < horizon) :
    (padZOH cs horizon).getD (min i ((padZOH cs horizon).length - 1)) 0 =
      cs.getD (min i (cs.length - 1)) 0 := by
  have hne : 0 < cs.length := List.length_pos.mpr hcs
  rw [padZOH_length cs horizon hlen]
  have hmini : min i (horizon - 1) = i := by omega
  rw [hmini]
  by_cases hcase : i < cs.length
  · have : min i (cs.length - 1) = i := by omega
    rw [this, padZOH, List.getD_append _ _ _ _ hcase]
  · push_neg at hcase
    have : min i (cs.length - 1) = cs.length - 1 := by omega
    rw [this, padZOH, List.getD_append_right _ _ _ _ hcase]
    rw [List.getD_eq_getElem?_getD, List.getElem?_replicate]
    have : i - cs.length < horizon - cs.length := by omega
    rw [if_pos this]
    rw [List.getLastD_eq_getLast?, List.getLast?_eq_getElem?,
      List.getD_eq_getElem?_getD, Option.getD_some]

/-- The prediction loop cannot tell the padded control sequence from the
original one: at every step the zero-order-hold lookup yields the same
control. -/
theorem predictAux_padZOH (m : PEMModel) (cs : List ℚ) (hcs : cs ≠ [])
    (horizon : ℕ) (hlen : cs.length < horizon) :
    ∀ fuel i s, i + fuel = horizon →
      predictAux m (padZOH cs horizon) fuel i s = predictAux m cs fuel i s := by
  intro fuel
  induction fuel with
  | zero => intro i s _; rfl
  | succ n ih =>
    intro i s hsum
    have hi : i < horizon := by omega
    have hu := padZOH_getD cs hcs horizon i hlen hi
    simp only [predictAux, hu]
    exact congrArg _ (ih (i + 1) _ (by omega))

/-- Every iteration of the QP gradient descent ends inside the clamp range. -/
theorem qpStep_bounds (s0 s1 spTemp spEff cur : ℚ) :
    100 ≤ qpStep s0 s1 spTemp spEff cur ∧ qpStep s0 s1 spTemp spEff cur ≤ 200 := by
  unfold qpStep
  exact ⟨le_max_left _ _, max_le (by norm_num) (min_le_left _ _)⟩

/-- The QP loop keeps the iterate inside the clamp range once it is there. -/
theorem qpLoop_bounds (s0 s1 spTemp spEff : ℚ) :
    ∀ n cur, 100 ≤ cur → cur ≤ 200 →
      100 ≤ qpLoop s0 s1 spTemp spEff n cur ∧ qpLoop s0 s1 spTemp spEff n cur ≤ 200 := by
  intro n
  induction n with
  | zero => intro cur h1 h2; exact ⟨h1, h2⟩
  | succ k ih =>
    intro cur _ _
    obtain ⟨hs1, hs2⟩ := qpStep_bounds s0 s1 spTemp spEff cur
    exact ih _ hs1 hs2

/-! ### Claim theorems -/

/-- C2: for every initial state, control sequence and horizon, the predicted
state trajectory has exactly horizon + 1 entries and its first entry is the
input state the prediction started from. -/
theorem trajectory_length_and_head (m : PEMModel) (s0 : ℚ × ℚ) (cs : List ℚ)
    (horizon : ℕ) :
    (predictTrajectory m s0 cs horizon).length = horizon + 1 ∧
    (predictTrajectory m s0 cs horizon).head? = some s0 := by
  constructor
  · simp [predictTrajectory, predictAux_length, Nat.add_comm]
  · rfl

/-- C9 (zero-order hold): for every nonempty control sequence, running the
horizon predictor on the sequence itself gives the same trajectory as running
it on the sequence explicitly padded to the horizon length with its last value
held constant, because step i of the loop reads the control at index
min(i, length - 1). -/
theorem predictTrajectory_zoh (m : PEMModel) (s0 : ℚ × ℚ) (cs : List ℚ)
    (horizon : ℕ) (hcs : cs ≠ []) :
    predictTrajectory m s0 (padZOH cs horizon) horizon =
      predictTrajectory m s0 cs horizon := by
  by_cases hlen : cs.length < horizon
  · unfold predictTrajectory
    exact congrArg _ (predictAux_padZOH m cs hcs horizon hlen horizon 0 s0 (by omega))
  · push_neg at hlen
    have : horizon - cs.length = 0 := by omega
    simp [padZOH, this]

/-- C9 witness: the padding equivalence evaluated on the end-to-end example
state with the singleton control sequence returned by solveQP. -/
theorem predictTrajectory_zoh_witness :
    predictTrajectory getPEMModel (65.9, 72.5) (padZOH [150] 10) 10 =
      predictTrajectory getPEMModel (65.9, 72.5) [150] 10 :=
  predictTrajectory_zoh getPEMModel (65.9, 72.5) [150] 10 (by decide)

/-- C1 counterexample: with input constraints minCurrent = 100 and
maxCurrent = 120 (a valid per-variable min/max configuration) and an estimated
uncertainty of 0, the stochastic strategy of the first MPCAlgorithms class
returns the control 150, which exceeds the configured maximum: the upper bound
is not clamped. -/
theorem stochastic_max_bound_counterexample :
    stochasticMPCControl 0 100 120 = 150 ∧ ¬ stochasticMPCControl 0 100 120 ≤ 120 := by
  constructor
  · norm_num [stochasticMPCControl]
  · norm_num [stochasticMPCControl]

/-- C1 amended: the QP solver clamps every iterate, so its control always lies
in the configured range 100..200; the stochastic path of the first
MPCAlgorithms class enforces only the lower bound, so its control is merely at
or above minCurrent and can exceed maxCurrent. -/
theorem control_bounds_amended :
    (∀ s0 s1 spTemp spEff : ℚ,
        100 ≤ solveQP s0 s1 spTemp spEff ∧ solveQP s0 s1 spTemp spEff ≤ 200) ∧
    (∀ uncertainty minCurrent maxCurrent : ℚ,
        minCurrent ≤ stochasticMPCControl uncertainty minCurrent maxCurrent) := by
  constructor
  · intro s0 s1 spTemp spEff
    exact qpLoop_bounds s0 s1 spTemp spEff 50 150 (by norm_num) (by norm_num)
  · intro uncertainty minCurrent maxCurrent
    exact le_max_right _ _

/-- C8: the deterministic strategy reads nothing from the ambient randomness
source: for any two random oracles, the comparator dispatch on
DETERMINISTIC_MPC returns the same control, and the part_004 standard MPC
returns the same control and the same predicted trajectory. -/
theorem deterministic_strategy_pure :
    (∀ r1 r2 : ℕ → ℚ, ∀ sp : ℚ,
        computeControl "DETERMINISTIC_MPC" r1 sp =
          computeControl "DETERMINISTIC_MPC" r2 sp) ∧
    (∀ r1 r2 : ℕ → ℚ, ∀ s0 s1 spTemp spEff : ℚ,
        standardMPCRun r1 s0 s1 spTemp spEff = standardMPCRun r2 s0 s1 spTemp spEff) :=
  ⟨fun _ _ _ => rfl, fun _ _ _ _ _ _ => rfl⟩

/-- C10: in the program the claimed projection property fails: applyConstraints
under the call sites' type key "input" returns every control unchanged, because
the configuration stores the input bounds under the key "inputs" and the lookup
under "input" misses, early-returning before the clamp. At the control
(300, 50) the unclamped result is rejected by checkFeasibility, although the
dead clamp branch of applyConstraints, keyed on exactly that type string, shows
the clamp was intended. The identity is trivially idempotent, so only the
projection-into-the-feasible-set half of the claim fails. -/
theorem applyConstraints_key_mismatch :
    (∀ v : ℚ × ℚ, applyConstraints "input" v = v) ∧
    applyConstraints "input" (300, 50) = (300, 50) ∧
    checkFeasibility inputConstraintCfg (300, 50) = false := by
  refine ⟨fun v => rfl, rfl, ?_⟩
  simp only [checkFeasibility, inputConstraintCfg, decide_eq_false_iff_not]
  norm_num

/-- A metrics record shared by two strategies, producing a tied score. -/
def mTie : Metrics :=
  { efficiency := 75, cost := 4, responseTime := 1, computationTime := 1,
    stability := 0.9, constraintViolations := 0, o2Production := 31.5 }

/-- C3 counterexample: with equal metrics for two strategies, in the order the
comparison loop inserts them into the metrics map, the ranking keeps
Standard-MPC before MixedInteger-MPC (the sort is stable on the insertion
order), although ascending strategy identifier order would place
MixedInteger-MPC first. -/
theorem ranking_tiebreak_counterexample :
    rankMPCAlgorithms [("Standard-MPC", mTie), ("MixedInteger-MPC", mTie)] =
      [("Standard-MPC", scoreOf mTie), ("MixedInteger-MPC", scoreOf mTie)] ∧
    "MixedInteger-MPC".data < "Standard-MPC".data := by
  constructor
  · simp [rankMPCAlgorithms, scoredEntries, List.insertionSort, List.orderedInsert]
  · decide

/-- C3 amended: for every metrics map, the ranking is ordered by non-increasing
score and is a permutation of the scored strategy entries; any two entries that
appear in order in the scored map and satisfy the non-strict descending
comparison keep that order in the ranking (the sort is stable on the metrics
map order), rather than being reordered by ascending strategy identifier. -/
theorem ranking_order_amended (ms : List (String × Metrics)) :
    (rankMPCAlgorithms ms).Sorted (fun a b => b.2 ≤ a.2) ∧
    (rankMPCAlgorithms ms).Perm (scoredEntries ms) ∧
    (∀ a b : String × ℚ, [a, b].Sublist (scoredEntries ms) → b.2 ≤ a.2 →
      [a, b].Sublist (rankMPCAlgorithms ms)) := by
  haveI htot : IsTotal (String × ℚ) (fun a b => b.2 ≤ a.2) :=
    ⟨fun a b => le_total b.2 a.2⟩
  haveI htrans : IsTrans (String × ℚ) (fun a b => b.2 ≤ a.2) :=
    ⟨fun _ _ _ h1 h2 => le_trans h2 h1⟩
  refine ⟨List.sorted_insertionSort _ _, List.perm_insertionSort _ _, ?_⟩
  intro a b hsub hle
  exact List.pair_sublist_insertionSort hle hsub

/-- C3 witness: the stability clause applied to the tied two-strategy metrics
map, with its hypotheses discharged at that concrete input. -/
theorem ranking_order_amended_witness :
    [("Standard-MPC", scoreOf mTie), ("MixedInteger-MPC", scoreOf mTie)].Sublist
      (rankMPCAlgorithms [("Standard-MPC", mTie), ("MixedInteger-MPC", mTie)]) :=
  (ranking_order_amended [("Standard-MPC", mTie), ("MixedInteger-MPC", mTie)]).2.2
    ("Standard-MPC", scoreOf mTie) ("MixedInteger-MPC", scoreOf mTie)
    (List.Sublist.refl _) (le_refl _)

/-- A metrics record with two constraint violations, separating the code's
violations term from the spec's. -/
def mViol : Metrics :=
  { efficiency := 75, cost := 4, responseTime := 1, computationTime := 1,
    stability := 0.9, constraintViolations := 2, o2Production := 31.5 }

/-- C4 counterexample: at a metrics record with two constraint violations the
score assigned by the ranking differs from the spec's weighted sum, because
the code weighs (1 - violations) * 0.15 while the spec words an inverse,
(1 / violations) * 0.15. -/
theorem score_formula_counterexample :
    rankMPCAlgorithms [("Standard-MPC", mViol)] = [("Standard-MPC", scoreOf mViol)] ∧
    scoreOf mViol ≠ specScoreFormula mViol := by
  constructor
  · rfl
  · norm_num [scoreOf, specScoreFormula, mViol]

/-- C4 amended: every strategy entry of the metrics map appears in the ranking
with the score efficiency * 0.25 + (1/cost) * 0.25 + (1/response time) * 0.15 +
stability * 0.20 + (1 - constraint violations) * 0.15, where response time
equals the measured computation time in the metrics the comparator builds. -/
theorem score_formula_amended (ms : List (String × Metrics)) (sid : String)
    (m : Metrics) (hmem : (sid, m) ∈ ms) :
    (sid, m.efficiency * 0.25 + (1 / m.cost) * 0.25 + (1 / m.responseTime) * 0.15 +
      m.stability * 0.20 + (1 - m.constraintViolations) * 0.15) ∈
      rankMPCAlgorithms ms := by
  have h1 : (sid, scoreOf m) ∈ scoredEntries ms :=
    List.mem_map.mpr ⟨(sid, m), hmem, rfl⟩
  exact (List.mem_insertionSort _).mpr h1

/-- C4 witness: the amended formula membership evaluated on a singleton metrics
map. -/
theorem score_formula_amended_witness :
    ("Standard-MPC", mViol.efficiency * 0.25 + (1 / mViol.cost) * 0.25 +
      (1 / mViol.responseTime) * 0.15 + mViol.stability * 0.20 +
      (1 - mViol.constraintViolations) * 0.15) ∈
      rankMPCAlgorithms [("Standard-MPC", mViol)] :=
  score_formula_amended [("Standard-MPC", mViol)] "Standard-MPC" mViol
    (List.mem_singleton.mpr rfl)

/-- A rejection anywhere in the strategy outcomes makes Promise.all reject. -/
theorem promiseAll_error (outcomes : List (Except String MpcResult)) (e : String)
    (he : Except.error e ∈ outcomes) :
    ∃ e2, promiseAll outcomes = Except.error e2 := by
  induction outcomes with
  | nil => cases he
  | cons hd tl ih =>
    cases hd with
    | error e1 => exact ⟨e1, rfl⟩
    | ok r =>
      have htl : Except.error e ∈ tl := by
        rcases List.mem_cons.mp he with h | h
        · cases h
        · exact h
      obtain ⟨e2, h2⟩ := ih htl
      exact ⟨e2, by simp [promiseAll, h2, Except.map]⟩

/-- A successful strategy result used in the abort counterexample. -/
def okStandard : MpcResult :=
  { type := "Standard-MPC", optimalCurrent := 150,
    predictedStates := some [(65.9, 72.5), (66.2, 73.1)],
    cost := some 4, totalCost := none, computationTime := some 0.1 }

/-- A second successful strategy result used in the abort counterexample. -/
def okMixedInteger : MpcResult :=
  { type := "MixedInteger-MPC", optimalCurrent := 165,
    predictedStates := none, cost := some 4.05, totalCost := none,
    computationTime := some 0.15 }

/-- C5 counterexample: with two strategies succeeding and one rejecting, the
whole comparison rejects with that strategy's error: the surviving decisions
and the ranking are not produced. -/
theorem strategy_error_aborts_counterexample :
    runAllMPCComparison [Except.ok okStandard,
        Except.error "DivergenceError: trajectory not finite",
        Except.ok okMixedInteger] =
      Except.error "DivergenceError: trajectory not finite" := by
  rfl

/-- C5 amended: an error raised inside any single strategy propagates through
Promise.all and aborts the whole comparison: no per-strategy capture happens
and no ranking is produced. -/
theorem strategy_error_aborts_amended (outcomes : List (Except String MpcResult))
    (e : String) (he : Except.error e ∈ outcomes) :
    ∃ e2, runAllMPCComparison outcomes = Except.error e2 := by
  obtain ⟨e2, h2⟩ := promiseAll_error outcomes e he
  exact ⟨e2, by simp [runAllMPCComparison, h2, Except.map]⟩

/-- C5 witness: the abort behaviour evaluated on a concrete outcome list with a
single failing strategy. -/
theorem strategy_error_aborts_amended_witness :
    ∃ e2, runAllMPCComparison [Except.ok okStandard,
        Except.error "ScenarioGenerationFailure: bad uncertainty configuration",
        Except.ok okMixedInteger] = Except.error e2 :=
  strategy_error_aborts_amended _
    "ScenarioGenerationFailure: bad uncertainty configuration" (by simp)

/-- C6 counterexample: a comparison in which all five strategies fail rejects
with the first strategy's own error message, which is not a
NoFeasibleStrategyError (no value of that name exists in the sources). -/
theorem zero_success_counterexample :
    runAllMPCComparison [Except.error "No feasible scenarios found",
        Except.error "Weather API unavailable: fetch failed",
        Except.error "DivergenceError: trajectory not finite",
        Except.error "Model not trained. Please train the model first.",
        Except.error "Scenario infeasible"] =
      Except.error "No feasible scenarios found" ∧
    "No feasible scenarios found" ≠ "NoFeasibleStrategyError" := by
  exact ⟨rfl, by decide⟩

/-- C6 amended: a comparison in which zero strategies succeed rejects with the
first strategy's own error rather than a dedicated NoFeasibleStrategyError;
separately, the stochastic strategy of the second MPCAlgorithms class raises
the explicit error "No feasible scenarios found" when none of its scenarios is
feasible, rather than fabricating a control. -/
theorem zero_success_behavior_amended :
    (∀ outcomes : List (Except String MpcResult), outcomes ≠ [] →
        (∀ r ∈ outcomes, ∀ a, r ≠ Except.ok a) →
        ∃ e, outcomes.head? = some (Except.error e) ∧
          runAllMPCComparison outcomes = Except.error e) ∧
    (∀ scenarioOutcomes : List (Except String (ℚ × ℚ)),
        (∀ r ∈ scenarioOutcomes, ∀ a, r ≠ Except.ok a) →
        stochasticMPCAlg scenarioOutcomes = Except.error "No feasible scenarios found") := by
  constructor
  · intro outcomes hne hall
    match outcomes with
    | [] => exact absurd rfl hne
    | Except.ok r :: tl => exact absurd rfl (hall _ (List.mem_cons_self _ _) r)
    | Except.error e :: tl => exact ⟨e, rfl, rfl⟩
  · intro scenarioOutcomes hall
    have hnil : scenarioOutcomes.filterMap (fun r => r.toOption) = [] := by
      rw [List.filterMap_eq_nil_iff]
      intro r hr
      cases r with
      | error e => rfl
      | ok a => exact absurd rfl (hall _ hr a)
    simp [stochasticMPCAlg, hnil]

/-- C6 witness: the zero-success behaviour evaluated on a concrete all-failing
comparison and a concrete all-infeasible scenario batch. -/
theorem zero_success_behavior_amended_witness :
    (∃ e, ([Except.error "Scenario infeasible",
        Except.error "DivergenceError: trajectory not finite"] :
          List (Except String MpcResult)).head? = some (Except.error e) ∧
      runAllMPCComparison [Except.error "Scenario infeasible",
        Except.error "DivergenceError: trajectory not finite"] = Except.error e) ∧
    stochasticMPCAlg [Except.error "Matrix dimension mismatch"] =
      Except.error "No feasible scenarios found" :=
  ⟨zero_success_behavior_amended.1 _ (by simp) (by simp),
   zero_success_behavior_amended.2 _ (by simp)⟩

/-- C7 counterexample: the scenarios produced by generateScenarios at the
source's default call (50 scenarios, horizon 8) carry no probability weight at
all, so they are not equal weights summing to 1. -/
theorem scenario_weights_counterexample :
    ((generateScenarios (fun _ _ _ => 0) 50 8).all
      (fun s => s.probability.isSome)) = false := by
  rfl

/-- C7 amended: the part_004 scenario generator returns a single scenario whose
probability weight is 1, so the weights trivially sum to exactly 1; the
generateScenarios generator of the second MPCAlgorithms class attaches no
probability weight to any scenario, for any random oracle, scenario count and
horizon. -/
theorem scenario_weights_amended :
    (generateUncertaintyScenarios = [some 1] ∧
      (generateUncertaintyScenarios.map (fun p => p.getD 0)).sum = 1) ∧
    (∀ (u : ℕ → ℕ → ℕ → ℚ) (n h : ℕ), ∀ s ∈ generateScenarios u n h,
      s.probability = none) := by
  refine ⟨⟨rfl, by norm_num [generateUncertaintyScenarios]⟩, ?_⟩
  intro u n h s hs
  simp only [generateScenarios, List.mem_map] at hs
  obtain ⟨i, _, rfl⟩ := hs
  rfl

/-- C7 witness: the weightless-scenario clause evaluated at a concrete oracle,
scenario count and horizon. -/
theorem scenario_weights_amended_witness :
    ({ electricityPrice := [], demandUncertainty := [], efficiencyVariation := [],
       temperatureNoise := [], probability := none } : Scenario).probability = none :=
  scenario_weights_amended.2 (fun _ _ _ => 0) 1 0
    { electricityPrice := [], demandUncertainty := [], efficiencyVariation := [],
      temperatureNoise := [], probability := none }
    (by simp [generateScenarios])

end PEMDash
